import Mathlib

/-!
Verification development for the worker-agent repository (`bot/` package).

The Python modules `bot/api.py`, `bot/outbox.py`, `bot/jobs.py`,
`bot/scheduler.py` and `bot/identity.py` are shallowly embedded below.
Effects are made explicit:

* HTTP exchanges are a value `Except ApiError HttpResponse` supplied by the
  environment (a transport error models an `aiohttp` exception; a response
  whose body is not JSON models `r.json()` raising).
* The outbox file `.state/outbox.jsonl` is a value `Option (List Line)`:
  `none` means the file does not exist, and each `Line` is abstracted by the
  outcome of `json.loads` on that line of text.
* Nondeterministic call outcomes (does `api.report` raise? does
  `outbox.append` raise?) are oracles passed in as functions.

Python `dict`s crossing the protocol boundary are modelled by the `Json`
type below.
-/

namespace Bot

/-- JSON values, the model of Python dicts/lists/scalars crossing the
protocol boundary (`payload`, response bodies, outbox entries). -/
inductive Json where
  | null : Json
  | bool (b : Bool) : Json
  | num (n : Int) : Json
  | str (s : String) : Json
  | arr (elems : List Json) : Json
  | obj (fields : List (String × Json)) : Json

/-- Structural equality on `Json` (Python `==` on decoded JSON values). -/
def Json.beq : Json → Json → Bool
  | .null, .null => true
  | .bool a, .bool b => a == b
  | .num a, .num b => a == b
  | .str a, .str b => a == b
  | .arr xs, .arr ys => beqList xs ys
  | .obj xs, .obj ys => beqFields xs ys
  | _, _ => false
where
  beqList : List Json → List Json → Bool
    | [], [] => true
    | x :: xs, y :: ys => x.beq y && beqList xs ys
    | _, _ => false
  beqFields : List (String × Json) → List (String × Json) → Bool
    | [], [] => true
    | (k, v) :: xs, (l, w) :: ys => k == l && v.beq w && beqFields xs ys
    | _, _ => false

/-- Python `d.get(key)` on a dict decoded from JSON: `none` when the value
is not an object or the key is absent. -/
def Json.get : Json → String → Option Json
  | .obj fields, key => fields.lookup key
  | _, _ => none

/-- An HTTP response as the `ApiClient` sees it: a status code and the
result of `r.json()` on the body (`none` when the body fails to decode,
in which case `r.json()` raises). -/
structure HttpResponse where
  status : Nat
  body : Option Json

/-- Errors an `ApiClient` call can raise: a transport-level failure of the
whole exchange, or `r.json()` failing on the body. -/
inductive ApiError where
  | transport (msg : String)
  | jsonDecode
deriving DecidableEq

/-- Method `ApiClient.report` (`bot/api.py` lines 52-55): POST to
`/jobs/{job_id}/{action}` and return `await r.json()`.  The status code is
never inspected; the call raises only when the exchange itself fails or the
body is not JSON.  The model takes the exchange outcome as input and
returns what the method returns. -/
def ApiClient.report (resp : Except ApiError HttpResponse) : Except ApiError Json :=
  match resp with
  | .error e => .error e
  | .ok r =>
    match r.body with
    | none => .error .jsonDecode
    | some data => .ok data

/-- Method `ApiClient.claim` (`bot/api.py` lines 45-50): POST to `/jobs/claim`,
decode the body and return `data.get("jobs", [])`.  The status code is
never inspected. -/
def ApiClient.claim (resp : Except ApiError HttpResponse) : Except ApiError Json :=
  match resp with
  | .error e => .error e
  | .ok r =>
    match r.body with
    | none => .error .jsonDecode
    | some data => .ok ((data.get "jobs").getD (Json.arr []))

/-- A line of `.state/outbox.jsonl`, abstracted by the outcome of
`json.loads` on it: `parsed v` is a line whose text decodes to the JSON
value `v`, `corrupt s` is a line on which `json.loads` raises. -/
inductive Line where
  | parsed (v : Json) : Line
  | corrupt (s : String) : Line

/-- Python `json.loads` on one outbox line. -/
def parseLine : Line → Except String Json
  | .parsed v => .ok v
  | .corrupt s => .error ("invalid json: " ++ s)

/-- The comprehension `[json.loads(l) for l in lines]`: parse each line left to right,
raising the first failure. -/
def parseLines : List Line → Except String (List Json)
  | [] => .ok []
  | l :: ls =>
    match parseLine l with
    | .error e => .error e
    | .ok v =>
      match parseLines ls with
      | .error e => .error e
      | .ok vs => .ok (v :: vs)

/-- The outbox file: `none` when `.state/outbox.jsonl` does not exist. -/
def OutboxFile := Option (List Line)

/-- Function `append` of `bot/outbox.py` (lines 6-9): open the file in append
mode (creating it if absent) and write `json.dumps(item) + "\n"`; the new
line decodes back to `item`. -/
def outbox.append (file : OutboxFile) (item : Json) : OutboxFile :=
  some ((file.getD []) ++ [Line.parsed item])

/-- Function `drain` of `bot/outbox.py` (lines 11-16): if the file is absent
return `[]`; otherwise read all lines, delete the file, parse each line as
JSON and return the first `max_items` parsed entries.  The file is deleted
before parsing, so a parse failure leaves no file behind.  Returns the new
file state together with the call's outcome. -/
def outbox.drain (file : OutboxFile) (max_items : Nat := 1000) :
    OutboxFile × Except String (List Json) :=
  match file with
  | none => (none, .ok [])
  | some lines =>
    match parseLines lines with
    | .error e => (none, .error e)
    | .ok items => (none, .ok (items.take max_items))

/-- The `Job` dataclass (`bot/state.py`): decoded from one element of the
claim response. -/
structure Job where
  id : String
  op : String
  payload : Json
  lease_until : Option Json

/-- An operation handler (`bot/jobs.py` `Handler`): awaited on a `Job`, it
either returns a result value or raises with a message. -/
def Handler := Job → Except String Json

/-- Function `run_job` (`bot/jobs.py` lines 19-23): look the op up in the handler
registry (a string-keyed map, modelled as an association list); a missing
handler raises `RuntimeError(f"No handler for op={job.op}")`, otherwise the
handler is awaited. -/
def run_job (registry : List (String × Handler)) (job : Job) : Except String Json :=
  match registry.lookup job.op with
  | none => .error ("No handler for op=" ++ job.op)
  | some handler => handler job

/-- One durable terminal report, the shape appended to the outbox by
`Scheduler._process_one`: `{"job_id": ..., "action": ..., "payload": ...}`. -/
structure OutboxEntry where
  job_id : String
  action : String
  payload : Json

/-- The JSON object `json.dumps` writes for an outbox entry. -/
def OutboxEntry.toJson (e : OutboxEntry) : Json :=
  .obj [("job_id", .str e.job_id), ("action", .str e.action), ("payload", e.payload)]

/-- Observable calls made by the per-job pipeline, in order: each
`api.report` call (with whether it returned normally) and each
`outbox.append` call (with whether it returned normally). -/
inductive Event where
  | reportCall (job_id : String) (action : String) (payload : Json) (ok : Bool)
  | outboxAppend (entry : OutboxEntry) (ok : Bool)

/-- The environment a scheduler runs against: the handler registry
(`REGISTRY` after plugin loading) and oracles fixing which live calls
raise. `reportErr j a p = some m` means `api.report(j, a, p)` raises with
message `m`; `appendErr e = some m` means `outbox.append(e)` raises
(e.g. a disk error). -/
structure SchedEnv where
  registry : List (String × Handler)
  reportErr : String → String → Json → Option String
  appendErr : OutboxEntry → Option String

/-- The report-or-outbox tail of `Scheduler._process_one` (`bot/scheduler.py`
lines 24-35): `try: await api.report(...) except: outbox.append(...)`.
The `append` inside the `except` block is itself unguarded, so an append
failure propagates out of the coroutine. -/
def reportOrOutbox (env : SchedEnv) (job_id action : String) (payload : Json) :
    List Event × Except String Unit :=
  match env.reportErr job_id action payload with
  | none => ([.reportCall job_id action payload true], .ok ())
  | some _ =>
    match env.appendErr ⟨job_id, action, payload⟩ with
    | none =>
      ([.reportCall job_id action payload false,
        .outboxAppend ⟨job_id, action, payload⟩ true], .ok ())
    | some m =>
      ([.reportCall job_id action payload false,
        .outboxAppend ⟨job_id, action, payload⟩ false], .error m)

/-- Decoding a raw claim-response element into a `Job`
(`Scheduler._process_one` line 19): `raw["id"]`, `raw["op"]`,
`raw["payload"]` raise `KeyError` when absent; `raw.get("lease_until")`
defaults to `None`.  `id` and `op` are the string fields every caller
supplies. -/
def decodeJob (raw : Json) : Except String Job :=
  match raw.get "id" with
  | some (.str i) =>
    match raw.get "op" with
    | some (.str o) =>
      match raw.get "payload" with
      | some p => .ok ⟨i, o, p, raw.get "lease_until"⟩
      | _ => .error "KeyError: payload"
    | _ => .error "KeyError: op"
  | _ => .error "KeyError: id"

/-- Method `Scheduler._process_one` (`bot/scheduler.py` lines 18-35): decode the
raw job, run it; on handler failure report `fail` with
`{"instance_id", "error"}`, on success report `complete` with
`{"instance_id", "result"}`; if the live report raises, append the same
`{job_id, action, payload}` to the outbox.  Returns the calls made and
whether the coroutine returned normally. -/
def process_one (env : SchedEnv) (instance_id : String) (raw : Json) :
    List Event × Except String Unit :=
  match decodeJob raw with
  | .error e => ([], .error e)
  | .ok job =>
    match run_job env.registry job with
    | .error e =>
      reportOrOutbox env job.id "fail"
        (.obj [("instance_id", .str instance_id), ("error", .str e)])
    | .ok result =>
      reportOrOutbox env job.id "complete"
        (.obj [("instance_id", .str instance_id), ("result", result)])

/-- Result of `Scheduler.flush_outbox`: the outbox file afterwards, the
entries whose live report succeeded (in order: what the server received),
the entries for which a report call was attempted (in order), and whether
the coroutine returned normally. -/
structure FlushResult where
  file : OutboxFile
  sent : List Json
  attempted : List Json
  res : Except String Unit

/-- Extraction of `item["job_id"]` / `item["action"]` as passed to
`api.report` by `flush_outbox`; outbox entries are written by `append`
with these string fields present. -/
def flushField (item : Json) (key : String) : String :=
  match item.get key with
  | some (.str s) => s
  | _ => ""

/-- Outcome of the `api.report(item["job_id"], item["action"],
item["payload"])` call issued by `flush_outbox` for a drained item:
`none` when the call returns normally, `some m` when it raises. -/
def flushCallErr (env : SchedEnv) (item : Json) : Option String :=
  env.reportErr (flushField item "job_id") (flushField item "action")
    ((item.get "payload").getD .null)

/-- The `for item in ...` loop of `Scheduler.flush_outbox`
(`bot/scheduler.py` lines 40-46): report each drained item in order; on
the first report failure, append that single item back to the outbox and
`break`.  Items after the failing one are not attempted (and are not
re-appended). -/
def flushLoop (env : SchedEnv) (file : OutboxFile) :
    List Json → FlushResult
  | [] => ⟨file, [], [], .ok ()⟩
  | item :: rest =>
    match flushCallErr env item with
    | none =>
      let r := flushLoop env file rest
      ⟨r.file, item :: r.sent, item :: r.attempted, r.res⟩
    | some _ => ⟨outbox.append file item, [], [item], .ok ()⟩

/-- Method `Scheduler.flush_outbox` (`bot/scheduler.py` lines 40-46): drain the
outbox (default cap 1000) and walk the drained items; a drain failure
(corrupt outbox) propagates. -/
def flush_outbox (env : SchedEnv) (file : OutboxFile) : FlushResult :=
  match outbox.drain file 1000 with
  | (f, .error e) => ⟨f, [], [], .error e⟩
  | (f, .ok items) => flushLoop env f items

/-- The identity record persisted at `.state/identity.json`
(`bot/identity.py`). -/
structure Identity where
  bot_key : String
  instance_id : String
  hostname : String
  os : String

/-- The machine environment `bot/identity.py` reads: `socket.gethostname()`,
`platform.platform()`, and `hashlib.sha256(...).hexdigest()` abstracted as
an opaque digest function. -/
structure IdentityEnv where
  hostname : String
  os : String
  sha256hex : String → String

/-- Function `_machine_fingerprint` (`bot/identity.py` lines 4-7):
`sha256(f"{host}|{sys}").hexdigest()`. -/
def machine_fingerprint (env : IdentityEnv) : String :=
  env.sha256hex (env.hostname ++ "|" ++ env.os)

/-- Function `load_identity` (`bot/identity.py` lines 9-20): if the file
exists (and parses), return its contents; otherwise mint a new identity
with the machine fingerprint and a fresh UUID4 (`uuid`), persist it, and
return it.  Returns the file state afterwards and the returned record. -/
def load_identity (env : IdentityEnv) (uuid : String) (file : Option Identity) :
    Option Identity × Identity :=
  match file with
  | some ident => (some ident, ident)
  | none =>
    let ident : Identity := ⟨machine_fingerprint env, uuid, env.hostname, env.os⟩
    (some ident, ident)

/-- Function `rotate_instance_id` (`bot/identity.py` lines 22-26): load the
identity (minting with `uuid₁` if the file is absent), overwrite its
`instance_id` with the fresh UUID4 `uuid₂`, persist, return. -/
def rotate_instance_id (env : IdentityEnv) (uuid₁ uuid₂ : String)
    (file : Option Identity) : Option Identity × Identity :=
  let ident := (load_identity env uuid₁ file).snd
  let ident₂ := { ident with instance_id := uuid₂ }
  (some ident₂, ident₂)

/-- State of one tick's fan-out phase (`Scheduler.tick`, `bot/scheduler.py`
lines 66-78, with `Scheduler._run_guarded` lines 83-90): `pending` jobs not
yet spawned, `inFlight` spawned tasks not yet finished, and `permits` free
permits of `self.sem` (initialised with `max_conc`, `bot/scheduler.py`
line 13). -/
structure TickState where
  pending : Nat
  inFlight : Nat
  permits : Nat
deriving DecidableEq

/-- Interleaving steps of the fan-out: `spawn` models
`await self.sem.acquire()` followed by `asyncio.create_task(...)` for the
next pending job (it needs a free permit, which `acquire` consumes), and
`finish` models a task completing, whose `finally` block runs
`self.sem.release()` exactly once. -/
inductive TickStep : TickState → TickState → Prop where
  | spawn (p i f : Nat) : TickStep ⟨p + 1, i, f + 1⟩ ⟨p, i + 1, f⟩
  | finish (p i f : Nat) : TickStep ⟨p, i + 1, f⟩ ⟨p, i, f + 1⟩

/-- States reachable by interleaving `spawn` and `finish` steps from a
given state. -/
inductive TickReachable (init : TickState) : TickState → Prop where
  | refl : TickReachable init init
  | step {s s' : TickState} : TickReachable init s → TickStep s s' →
      TickReachable init s'

/-- Start of a tick's fan-out over `jobs` claimed jobs with a semaphore of
`max_conc` permits: nothing spawned, all permits free. -/
def tickInit (jobs max_conc : Nat) : TickState := ⟨jobs, 0, max_conc⟩

/-- Observation: did a call return normally (no exception)? -/
def isOk {ε α : Type} : Except ε α → Bool
  | .ok _ => true
  | .error _ => false

/-- The `sum` plugin handler (`bot/plugins/sum.py`):
`return {"result": a + b}` for `a = payload["a"]`, `b = payload["b"]`
(numeric payloads, as in every test). -/
def sumHandler : Handler := fun job =>
  match job.payload.get "a", job.payload.get "b" with
  | some (.num a), some (.num b) => .ok (.obj [("result", .num (a + b))])
  | _, _ => .error "KeyError"

/-- The `subtract` plugin handler (`bot/plugins/subtract.py`):
`return {"result": a - b}`. -/
def subtractHandler : Handler := fun job =>
  match job.payload.get "a", job.payload.get "b" with
  | some (.num a), some (.num b) => .ok (.obj [("result", .num (a - b))])
  | _, _ => .error "KeyError"

/-- The handler registry after `load_plugins()` (`bot/jobs.py` lines 13-17):
plugin modules are imported in `pkgutil.iter_modules` order and register
themselves via `@op`. -/
def pluginRegistry : List (String × Handler) :=
  [("subtract", subtractHandler), ("sum", sumHandler)]

/-- Fixture: the raw claimed job `{"id": "job_1", "op": "sum",
"payload": {"a": 1, "b": 2}}` used throughout
`tests/unit/scheduler/test_scheduler.py`. -/
def rawJob₁ : Json :=
  .obj [("id", .str "job_1"), ("op", .str "sum"),
    ("payload", .obj [("a", .num 1), ("b", .num 2)])]

/-- Fixture: an environment in which every live call returns normally. -/
def liveOkEnv : SchedEnv :=
  ⟨pluginRegistry, fun _ _ _ => none, fun _ => none⟩

/-- Fixture: an environment in which every `api.report` call raises
("Network error", as mocked in the scheduler unit tests) and
`outbox.append` succeeds. -/
def reportDownEnv : SchedEnv :=
  ⟨pluginRegistry, fun _ _ _ => some "Network error", fun _ => none⟩

/-- Fixture: an environment in which every `api.report` call raises and
every `outbox.append` call also raises (disk full). -/
def diskFullEnv : SchedEnv :=
  ⟨pluginRegistry, fun _ _ _ => some "Network error", fun _ => some "disk full"⟩

/-- Fixture: the three pending outbox items of
`test_flush_outbox_partial_failure` (`tests/unit/scheduler/test_scheduler.py`
lines 247-251). -/
def pendingItem₁ : Json :=
  .obj [("job_id", .str "job_1"), ("action", .str "complete"),
    ("payload", .obj [("result", .num 1)])]

/-- Fixture: second pending item of the same test; its report raises. -/
def pendingItem₂ : Json :=
  .obj [("job_id", .str "job_2"), ("action", .str "fail"),
    ("payload", .obj [("error", .str "test")])]

/-- Fixture: third pending item of the same test. -/
def pendingItem₃ : Json :=
  .obj [("job_id", .str "job_3"), ("action", .str "complete"),
    ("payload", .obj [("result", .num 3)])]

/-- Fixture: the environment of that test — the mocked `api.report`
succeeds on the first item and raises "Network error" on `job_2`'s
report; `outbox.append` succeeds. -/
def partialFailureEnv : SchedEnv :=
  ⟨pluginRegistry,
    fun j _ _ => if j = "job_2" then some "Network error" else none,
    fun _ => none⟩

/-- Fixture: a claimed job whose op has no registered handler (op
`multiply`, as in the spec's assignment-update scenario). -/
def rawJobNoHandler : Json :=
  .obj [("id", .str "job_x"), ("op", .str "multiply"), ("payload", .obj [])]

/-- The action `_process_one` reports for a decoded job: `complete` when
the handler returns, `fail` when it raises (`bot/scheduler.py` lines
21-35). -/
def terminalAction (env : SchedEnv) (job : Job) : String :=
  match run_job env.registry job with
  | .ok _ => "complete"
  | .error _ => "fail"

/-- The payload `_process_one` builds for a decoded job:
`{"instance_id": ..., "result": ...}` on success,
`{"instance_id": ..., "error": str(e)}` on failure. -/
def terminalPayload (env : SchedEnv) (inst : String) (job : Job) : Json :=
  match run_job env.registry job with
  | .ok r => .obj [("instance_id", .str inst), ("result", r)]
  | .error e => .obj [("instance_id", .str inst), ("error", .str e)]

/-! ### Helper lemmas -/

/-- Parsing a file each of whose lines was written by `json.dumps`
round-trips to the written items. -/
theorem parseLines_map_parsed (items : List Json) :
    parseLines (items.map Line.parsed) = Except.ok items := by
  induction items with
  | nil => rfl
  | cons x xs ih => simp [parseLines, parseLine, ih]

/-- Line-by-line parsing fails exactly when some line is corrupt. -/
theorem parseLines_error_iff (lines : List Line) :
    (∃ e, parseLines lines = Except.error e) ↔ ∃ s, Line.corrupt s ∈ lines := by
  induction lines with
  | nil => simp [parseLines]
  | cons l ls ih =>
    cases l with
    | corrupt s =>
      constructor
      · intro _
        exact ⟨s, List.mem_cons_self _ _⟩
      · intro _
        exact ⟨"invalid json: " ++ s, rfl⟩
    | parsed v =>
      have hmem : (∃ s, Line.corrupt s ∈ Line.parsed v :: ls) ↔
          ∃ s, Line.corrupt s ∈ ls := by
        simp [List.mem_cons]
      rw [hmem, ← ih]
      cases h : parseLines ls with
      | error e => simp [parseLines, parseLine, h]
      | ok vs => simp [parseLines, parseLine, h]

/-- The flush loop on a drained list whose first report failure is at
`bad`: every item before `bad` is reported and kept in order, `bad` alone
is re-appended, nothing after `bad` is attempted, and the loop returns
normally. -/
theorem flushLoop_first_failure (env : SchedEnv) (file : OutboxFile)
    (pre post : List Json) (bad : Json) (m : String)
    (hpre : ∀ x ∈ pre, flushCallErr env x = none)
    (hbad : flushCallErr env bad = some m) :
    flushLoop env file (pre ++ bad :: post) =
      ⟨outbox.append file bad, pre, pre ++ [bad], Except.ok ()⟩ := by
  induction pre with
  | nil => simp [flushLoop, hbad]
  | cons x xs ih =>
    have hx : flushCallErr env x = none := hpre x (List.mem_cons_self _ _)
    have ihh := ih (fun y hy => hpre y (List.mem_cons_of_mem _ hy))
    simp [flushLoop, hx, ihh]

/-! ### Claims -/

/-- C1 counterexample: the dispatcher client's `report` does **not** raise
on a non-2xx status.  On a 500 response whose body is JSON it returns the
body normally, so the caller's outbox fallback is not triggered. -/
theorem C1_report_counterexample :
    ApiClient.report (Except.ok ⟨500, some Json.null⟩) = Except.ok Json.null ∧
    isOk (ApiClient.report (Except.ok ⟨500, some Json.null⟩)) = true :=
  ⟨rfl, rfl⟩

/-- C1 (amended): `ApiClient.report` never inspects the HTTP status.  For
any status — 2xx or not — it returns the parsed JSON body; it raises only
on a transport error or when the body fails to decode as JSON. -/
theorem C1_report_status_blind (s : Nat) (j : Json) (e : ApiError) :
    ApiClient.report (Except.ok ⟨s, some j⟩) = Except.ok j ∧
    ApiClient.report (Except.ok ⟨s, none⟩) = Except.error ApiError.jsonDecode ∧
    ApiClient.report (Except.error e) = Except.error e :=
  ⟨rfl, rfl, rfl⟩

/-- C9: the dispatcher client's `claim` never inspects the HTTP status:
for every response whose body parses as JSON it returns normally with the
value of the "jobs" key (or the empty list when the key is missing), for
any two statuses the result is the same, and a non-2xx response with a
JSON body is not an error. -/
theorem C9_claim_status_blind (s s' : Nat) (b : Option Json) (d : Json) :
    ApiClient.claim (Except.ok ⟨s, b⟩) = ApiClient.claim (Except.ok ⟨s', b⟩) ∧
    ApiClient.claim (Except.ok ⟨s, some d⟩) =
      Except.ok ((d.get "jobs").getD (Json.arr [])) ∧
    isOk (ApiClient.claim (Except.ok ⟨s, some d⟩)) = true := by
  refine ⟨?_, rfl, rfl⟩
  cases b <;> rfl

/-- C8: for an existing (valid) identity file, `rotate_instance_id`
replaces exactly the `instance_id` field with the fresh UUID and persists
the result: `bot_key`, `hostname` and `os` are unchanged both in the
returned record and in the file on disk, and the file equals the returned
record. -/
theorem C8_rotate_replaces_only_instance_id (env : IdentityEnv)
    (u₁ u₂ : String) (id₀ : Identity) :
    rotate_instance_id env u₁ u₂ (some id₀) =
      (some ⟨id₀.bot_key, u₂, id₀.hostname, id₀.os⟩,
        ⟨id₀.bot_key, u₂, id₀.hostname, id₀.os⟩) := rfl

/-- C5: `drain` on an absent file returns the empty list; on a present
file it always deletes the file, returns the first `max_items` parsed
entries in file order when every line parses, and fails with the parse
error — the file already removed — when some line is corrupt (which is
exactly when parsing can fail). -/
theorem C5_drain_spec (lines : List Line) (m : Nat) :
    outbox.drain none m = (none, Except.ok []) ∧
    (outbox.drain (some lines) m).fst = none ∧
    (∀ items, parseLines lines = Except.ok items →
      outbox.drain (some lines) m = (none, Except.ok (items.take m))) ∧
    (∀ e, parseLines lines = Except.error e →
      outbox.drain (some lines) m = (none, Except.error e)) ∧
    ((∃ e, parseLines lines = Except.error e) ↔ ∃ s, Line.corrupt s ∈ lines) := by
  refine ⟨rfl, ?_, ?_, ?_, parseLines_error_iff lines⟩
  · cases h : parseLines lines <;> simp [outbox.drain, h]
  · intro items h
    simp [outbox.drain, h]
  · intro e h
    simp [outbox.drain, h]

/-- C5 witness: a concrete two-line file whose second line is corrupt —
`drain` fails with the parse error and the file is already gone. -/
theorem C5_drain_witness :
    parseLines [Line.parsed Json.null, Line.corrupt "oops"] =
      Except.error "invalid json: oops" ∧
    outbox.drain (some [Line.parsed Json.null, Line.corrupt "oops"]) 7 =
      (none, Except.error "invalid json: oops") :=
  ⟨rfl,
    (C5_drain_spec [Line.parsed Json.null, Line.corrupt "oops"] 7).2.2.2.1
      "invalid json: oops" rfl⟩

/-- C10: when the file holds more entries than `max_items`, `drain`
returns only the first `max_items` entries yet deletes the whole file, so
the surplus entries are neither returned nor left on disk. -/
theorem C10_drain_discards_surplus (items : List Json) (m : Nat)
    (h : m < items.length) :
    outbox.drain (some (items.map Line.parsed)) m =
      (none, Except.ok (items.take m)) ∧
    (items.take m).length = m ∧
    items.take m ≠ items := by
  refine ⟨?_, ?_, ?_⟩
  · simp [outbox.drain, parseLines_map_parsed]
  · rw [List.length_take]
    omega
  · intro hEq
    have hlen := congrArg List.length hEq
    rw [List.length_take] at hlen
    omega

/-- C10 witness: three entries, cap 2 — the third entry is discarded and
the file is deleted. -/
theorem C10_drain_witness :
    2 < ([Json.null, Json.bool true, Json.num 3] : List Json).length ∧
    outbox.drain (some ([Json.null, Json.bool true, Json.num 3].map Line.parsed)) 2 =
      (none, Except.ok [Json.null, Json.bool true]) :=
  ⟨by decide,
    (C10_drain_discards_surplus [Json.null, Json.bool true, Json.num 3] 2
      (by decide)).1⟩

/-- C2 counterexample: the fixture of `test_flush_outbox_partial_failure` —
outbox `[item₁, item₂, item₃]`, first report succeeds, second raises.
After the flush the outbox file contains only `item₂`: `item₃`, which was
drained off disk and never attempted, is dropped, contradicting the claim
that the file then holds `[item₂, item₃]`. -/
theorem C2_flush_counterexample :
    flush_outbox partialFailureEnv
        (some [Line.parsed pendingItem₁, Line.parsed pendingItem₂,
          Line.parsed pendingItem₃]) =
      ⟨some [Line.parsed pendingItem₂], [pendingItem₁],
        [pendingItem₁, pendingItem₂], Except.ok ()⟩ ∧
    some [Line.parsed pendingItem₂] ≠
      some [Line.parsed pendingItem₂, Line.parsed pendingItem₃] := by
  constructor
  · rfl
  · simp

/-- C2 (amended): if entry `bad`'s report is the first to fail during a
tick's flush of outbox `pre ++ bad :: post` (at most the drain cap of 1000
entries), then afterwards the server has received exactly `pre` in order,
no entry after `bad` was attempted, and the outbox file contains exactly
`bad` — the already-drained entries `post` are removed from disk and
dropped, not retried. -/
theorem C2_flush_first_failure (env : SchedEnv) (pre post : List Json)
    (bad : Json) (m : String)
    (hlen : (pre ++ bad :: post).length ≤ 1000)
    (hpre : ∀ x ∈ pre, flushCallErr env x = none)
    (hbad : flushCallErr env bad = some m) :
    flush_outbox env (some ((pre ++ bad :: post).map Line.parsed)) =
      ⟨some [Line.parsed bad], pre, pre ++ [bad], Except.ok ()⟩ := by
  have hd : outbox.drain (some ((pre ++ bad :: post).map Line.parsed)) 1000 =
      (none, Except.ok (pre ++ bad :: post)) := by
    simp only [outbox.drain, parseLines_map_parsed, List.take_of_length_le hlen]
  unfold flush_outbox
  rw [hd]
  exact flushLoop_first_failure env none pre post bad m hpre hbad

/-- C2 witness: the amended statement at the fixture of
`test_flush_outbox_partial_failure`. -/
theorem C2_flush_witness :
    (∀ x ∈ [pendingItem₁], flushCallErr partialFailureEnv x = none) ∧
    flushCallErr partialFailureEnv pendingItem₂ = some "Network error" ∧
    ([pendingItem₁] ++ pendingItem₂ :: [pendingItem₃]).length ≤ 1000 ∧
    flush_outbox partialFailureEnv
        (some (([pendingItem₁] ++ pendingItem₂ :: [pendingItem₃]).map Line.parsed)) =
      ⟨some [Line.parsed pendingItem₂], [pendingItem₁],
        [pendingItem₁] ++ [pendingItem₂], Except.ok ()⟩ := by
  have hpre : ∀ x ∈ [pendingItem₁], flushCallErr partialFailureEnv x = none := by
    intro x hx
    rw [List.mem_singleton] at hx
    subst hx
    rfl
  refine ⟨hpre, rfl, by decide, ?_⟩
  exact C2_flush_first_failure partialFailureEnv [pendingItem₁] [pendingItem₃]
    pendingItem₂ "Network error" (by decide) hpre rfl

/-- C3: every raw job that decodes processes to exactly one terminal
outcome: one live report call — `complete` with the result payload on
handler success, `fail` with the error payload on handler failure — and,
exactly when that live report raises, one `outbox.append` call of the same
`{job_id, action, payload}`; never zero calls and never more than one of
each. -/
theorem C3_unique_terminal_report (env : SchedEnv) (inst : String)
    (raw : Json) (job : Job) (h : decodeJob raw = Except.ok job) :
    ∃ action payload,
      (action, payload) =
        (match run_job env.registry job with
          | .ok r => ("complete",
              Json.obj [("instance_id", Json.str inst), ("result", r)])
          | .error e => ("fail",
              Json.obj [("instance_id", Json.str inst), ("error", Json.str e)])) ∧
      (process_one env inst raw).fst =
        (match env.reportErr job.id action payload with
          | none => [Event.reportCall job.id action payload true]
          | some _ =>
            [Event.reportCall job.id action payload false,
              Event.outboxAppend ⟨job.id, action, payload⟩
                ((env.appendErr ⟨job.id, action, payload⟩).isNone)]) := by
  cases hr : run_job env.registry job with
  | ok r =>
    refine ⟨"complete", Json.obj [("instance_id", Json.str inst), ("result", r)],
      rfl, ?_⟩
    have hpo : process_one env inst raw =
        reportOrOutbox env job.id "complete"
          (Json.obj [("instance_id", Json.str inst), ("result", r)]) := by
      simp only [process_one, h, hr]
    rw [hpo]
    unfold reportOrOutbox
    cases hre : env.reportErr job.id "complete"
        (Json.obj [("instance_id", Json.str inst), ("result", r)]) with
    | none => rfl
    | some msg =>
      cases ha : env.appendErr ⟨job.id, "complete",
          Json.obj [("instance_id", Json.str inst), ("result", r)]⟩ with
      | none => rfl
      | some m => rfl
  | error e =>
    refine ⟨"fail", Json.obj [("instance_id", Json.str inst), ("error", Json.str e)],
      rfl, ?_⟩
    have hpo : process_one env inst raw =
        reportOrOutbox env job.id "fail"
          (Json.obj [("instance_id", Json.str inst), ("error", Json.str e)]) := by
      simp only [process_one, h, hr]
    rw [hpo]
    unfold reportOrOutbox
    cases hre : env.reportErr job.id "fail"
        (Json.obj [("instance_id", Json.str inst), ("error", Json.str e)]) with
    | none => rfl
    | some msg =>
      cases ha : env.appendErr ⟨job.id, "fail",
          Json.obj [("instance_id", Json.str inst), ("error", Json.str e)]⟩ with
      | none => rfl
      | some m => rfl

/-- C3 witness: the happy-path fixture job under a live server — exactly
one `complete` report and no outbox append. -/
theorem C3_unique_terminal_report_witness :
    decodeJob rawJob₁ =
      Except.ok ⟨"job_1", "sum", Json.obj [("a", Json.num 1), ("b", Json.num 2)], none⟩ ∧
    (process_one liveOkEnv "inst_test" rawJob₁).fst =
      [Event.reportCall "job_1" "complete"
        (Json.obj [("instance_id", Json.str "inst_test"),
          ("result", Json.obj [("result", Json.num 3)])]) true] := by
  obtain ⟨a, p, hap, hev⟩ := C3_unique_terminal_report liveOkEnv "inst_test"
    rawJob₁ ⟨"job_1", "sum", Json.obj [("a", Json.num 1), ("b", Json.num 2)], none⟩ rfl
  have hap' : (a, p) = ("complete",
      Json.obj [("instance_id", Json.str "inst_test"),
        ("result", Json.obj [("result", Json.num 3)])]) := hap
  have ha : a = "complete" := congrArg Prod.fst hap'
  have hp : p = Json.obj [("instance_id", Json.str "inst_test"),
      ("result", Json.obj [("result", Json.num 3)])] := congrArg Prod.snd hap'
  subst ha hp
  exact ⟨rfl, hev⟩

/-- C4 counterexample: when the live report of `job_1` raises and the
outbox append then also raises (disk full), `_process_one` does **not**
swallow the append error — the coroutine ends with the disk error instead
of returning normally, so the error propagates out of the per-job
pipeline. -/
theorem C4_counterexample :
    process_one diskFullEnv "inst_test" rawJob₁ =
      ([Event.reportCall "job_1" "complete"
          (Json.obj [("instance_id", Json.str "inst_test"),
            ("result", Json.obj [("result", Json.num 3)])]) false,
        Event.outboxAppend ⟨"job_1", "complete",
          Json.obj [("instance_id", Json.str "inst_test"),
            ("result", Json.obj [("result", Json.num 3)])]⟩ false],
        Except.error "disk full") ∧
    isOk (process_one diskFullEnv "inst_test" rawJob₁).snd = false :=
  ⟨rfl, rfl⟩

/-- C4 (amended): if for a decoded job the live report raises and the
subsequent outbox append also raises, the per-job pipeline makes exactly
those two calls, the job outcome is dropped (neither call succeeded), and
the append error is **not** swallowed: `_process_one` ends with it, so it
propagates to the tick. -/
theorem C4_outbox_error_propagates (env : SchedEnv) (inst : String)
    (raw : Json) (job : Job) (msg m : String)
    (h : decodeJob raw = Except.ok job)
    (hre : env.reportErr job.id (terminalAction env job)
      (terminalPayload env inst job) = some msg)
    (hae : env.appendErr ⟨job.id, terminalAction env job,
      terminalPayload env inst job⟩ = some m) :
    process_one env inst raw =
      ([Event.reportCall job.id (terminalAction env job)
          (terminalPayload env inst job) false,
        Event.outboxAppend ⟨job.id, terminalAction env job,
          terminalPayload env inst job⟩ false],
        Except.error m) ∧
    isOk (process_one env inst raw).snd = false := by
  cases hjr : run_job env.registry job with
  | ok r =>
    simp only [terminalAction, terminalPayload, hjr] at hre hae ⊢
    have hpo : process_one env inst raw =
        reportOrOutbox env job.id "complete"
          (Json.obj [("instance_id", Json.str inst), ("result", r)]) := by
      simp only [process_one, h, hjr]
    rw [hpo]
    unfold reportOrOutbox
    rw [hre, hae]
    exact ⟨rfl, rfl⟩
  | error e =>
    simp only [terminalAction, terminalPayload, hjr] at hre hae ⊢
    have hpo : process_one env inst raw =
        reportOrOutbox env job.id "fail"
          (Json.obj [("instance_id", Json.str inst), ("error", Json.str e)]) := by
      simp only [process_one, h, hjr]
    rw [hpo]
    unfold reportOrOutbox
    rw [hre, hae]
    exact ⟨rfl, rfl⟩

/-- C4 witness: the amended statement at the disk-full fixture. -/
theorem C4_outbox_error_witness :
    decodeJob rawJob₁ = Except.ok ⟨"job_1", "sum",
      Json.obj [("a", Json.num 1), ("b", Json.num 2)], none⟩ ∧
    diskFullEnv.reportErr "job_1"
      (terminalAction diskFullEnv
        ⟨"job_1", "sum", Json.obj [("a", Json.num 1), ("b", Json.num 2)], none⟩)
      (terminalPayload diskFullEnv "inst_test"
        ⟨"job_1", "sum", Json.obj [("a", Json.num 1), ("b", Json.num 2)], none⟩) =
      some "Network error" ∧
    (process_one diskFullEnv "inst_test" rawJob₁ =
      ([Event.reportCall "job_1"
          (terminalAction diskFullEnv
            ⟨"job_1", "sum", Json.obj [("a", Json.num 1), ("b", Json.num 2)], none⟩)
          (terminalPayload diskFullEnv "inst_test"
            ⟨"job_1", "sum", Json.obj [("a", Json.num 1), ("b", Json.num 2)], none⟩)
          false,
        Event.outboxAppend ⟨"job_1",
          terminalAction diskFullEnv
            ⟨"job_1", "sum", Json.obj [("a", Json.num 1), ("b", Json.num 2)], none⟩,
          terminalPayload diskFullEnv "inst_test"
            ⟨"job_1", "sum", Json.obj [("a", Json.num 1), ("b", Json.num 2)], none⟩⟩
          false],
        Except.error "disk full") ∧
      isOk (process_one diskFullEnv "inst_test" rawJob₁).snd = false) :=
  ⟨rfl, rfl,
    C4_outbox_error_propagates diskFullEnv "inst_test" rawJob₁
      ⟨"job_1", "sum", Json.obj [("a", Json.num 1), ("b", Json.num 2)], none⟩
      "Network error" "disk full" rfl rfl rfl⟩

/-- C7: for every decoded job whose op has no registered handler, the
pipeline's first call is a `fail` report whose payload error string is
exactly `"No handler for op=<op>"`; and when that report succeeds it is
the only call and the coroutine returns normally (a job failure, not a
tick failure). -/
theorem C7_missing_handler (env : SchedEnv) (inst : String) (raw : Json)
    (job : Job) (h : decodeJob raw = Except.ok job)
    (hh : env.registry.lookup job.op = none) :
    (process_one env inst raw).fst.head? =
      some (Event.reportCall job.id "fail"
        (Json.obj [("instance_id", Json.str inst),
          ("error", Json.str ("No handler for op=" ++ job.op))])
        ((env.reportErr job.id "fail"
          (Json.obj [("instance_id", Json.str inst),
            ("error", Json.str ("No handler for op=" ++ job.op))])).isNone)) ∧
    (env.reportErr job.id "fail"
        (Json.obj [("instance_id", Json.str inst),
          ("error", Json.str ("No handler for op=" ++ job.op))]) = none →
      process_one env inst raw =
        ([Event.reportCall job.id "fail"
            (Json.obj [("instance_id", Json.str inst),
              ("error", Json.str ("No handler for op=" ++ job.op))]) true],
          Except.ok ())) := by
  have hjr : run_job env.registry job =
      Except.error ("No handler for op=" ++ job.op) := by
    unfold run_job
    rw [hh]
  have hpo : process_one env inst raw =
      reportOrOutbox env job.id "fail"
        (Json.obj [("instance_id", Json.str inst),
          ("error", Json.str ("No handler for op=" ++ job.op))]) := by
    simp only [process_one, h, hjr]
  constructor
  · rw [hpo]
    unfold reportOrOutbox
    cases hre : env.reportErr job.id "fail"
        (Json.obj [("instance_id", Json.str inst),
          ("error", Json.str ("No handler for op=" ++ job.op))]) with
    | none => rfl
    | some msg =>
      cases hae : env.appendErr ⟨job.id, "fail",
          Json.obj [("instance_id", Json.str inst),
            ("error", Json.str ("No handler for op=" ++ job.op))]⟩ with
      | none => rfl
      | some m => rfl
  · intro hre
    rw [hpo]
    unfold reportOrOutbox
    rw [hre]

/-- C7 witness: a claimed `multiply` job against the registry holding only
`sum` and `subtract` — a single successful `fail` report with the exact
message `No handler for op=multiply`. -/
theorem C7_missing_handler_witness :
    decodeJob rawJobNoHandler =
      Except.ok ⟨"job_x", "multiply", Json.obj [], none⟩ ∧
    liveOkEnv.registry.lookup "multiply" = none ∧
    liveOkEnv.reportErr "job_x" "fail"
      (Json.obj [("instance_id", Json.str "inst_test"),
        ("error", Json.str "No handler for op=multiply")]) = none ∧
    process_one liveOkEnv "inst_test" rawJobNoHandler =
      ([Event.reportCall "job_x" "fail"
          (Json.obj [("instance_id", Json.str "inst_test"),
            ("error", Json.str "No handler for op=multiply")]) true],
        Except.ok ()) :=
  ⟨rfl, rfl, rfl,
    (C7_missing_handler liveOkEnv "inst_test" rawJobNoHandler
      ⟨"job_x", "multiply", Json.obj [], none⟩ rfl rfl).2 rfl⟩

/-- C6: in the tick fan-out discipline — a permit is acquired before each
task is spawned and released exactly once when the task finishes — every
state reachable from the start of a tick keeps the number of in-flight
job tasks at most the semaphore capacity `max_conc` in force for the
tick's acquisitions (and in-flight tasks plus free permits always equal
that capacity). -/
theorem C6_bounded_concurrency (jobs max_conc : Nat) (s : TickState)
    (h : TickReachable (tickInit jobs max_conc) s) :
    s.inFlight + s.permits = max_conc ∧ s.inFlight ≤ max_conc := by
  induction h with
  | refl => exact ⟨Nat.zero_add _, Nat.zero_le _⟩
  | step hr hstep ih =>
    obtain ⟨ih1, ih2⟩ := ih
    cases hstep with
    | spawn p i f =>
      have ih1' : i + (f + 1) = max_conc := ih1
      exact ⟨show i + 1 + f = max_conc by omega, show i + 1 ≤ max_conc by omega⟩
    | finish p i f =>
      have ih1' : i + 1 + f = max_conc := ih1
      exact ⟨show i + (f + 1) = max_conc by omega, show i ≤ max_conc by omega⟩

/-- C6 witness: from a tick start with 3 claimed jobs and capacity 2, the
state after one spawn (1 in flight, 1 free permit) is reachable and
satisfies the bound. -/
theorem C6_bounded_concurrency_witness :
    TickReachable (tickInit 3 2) ⟨2, 1, 1⟩ ∧
    ((1 : Nat) + 1 = 2 ∧ (1 : Nat) ≤ 2) := by
  have hr : TickReachable (tickInit 3 2) ⟨2, 1, 1⟩ :=
    TickReachable.step TickReachable.refl (TickStep.spawn 2 0 1)
  exact ⟨hr, C6_bounded_concurrency 3 2 ⟨2, 1, 1⟩ hr⟩

end Bot
